import Mathlib

/-!
# fallible.hpp

A shallow embedding of the class template `fallible<T>` of `src/fallible.hpp`:

```
std::unique_ptr <std::exception> exc;
boost::optional <T> value;
```

The owning pointer `exc` is an `Option` (`none` is the null pointer), the
optional `value` is an `Option`.  Member functions are functions of the object;
the defaulted move operations return the pair (target, source afterwards).
-/

/-! ## Outcomes of a call -/

/-- Result of a call that has a precondition in a library it relies on.
`ok a`: the call returns `a`.  `assertFailed`: a `BOOST_ASSERT` fired and the
program was aborted.  `undefined`: a library precondition was violated with no
check compiled in, the language gives the call no behaviour. -/
inductive Outcome (α : Type) where
  | ok (a : α)
  | assertFailed
  | undefined
deriving DecidableEq, Repr

/-! ## Exception objects -/

/-- An object of a class derived from `std::exception`.  `base` is what
`std::exception::what()` itself returns.  `layers` lists the classes of the
inheritance chain below `std::exception`, base class first, ending with the
dynamic type of the object: `some m` for a class that overrides `what()` to
return `m`, `none` for a class that inherits `what()`. -/
structure ExcObject where
  base : String
  layers : List (Option String)
deriving DecidableEq, Repr

/-- The virtual call `e.what()`: the override of the most derived class that
has one, otherwise `std::exception::what()`. -/
def ExcObject.what (e : ExcObject) : String :=
  (e.layers.reverse.findSome? id).getD e.base

/-- A constructor argument `ExceptionT const&` (or `ExceptionT&&`): the object
referred to, and the static type `ExceptionT` the template parameter was deduced
to, given as the number of classes below `std::exception` it stands in the
chain of the object (0 is `std::exception` itself). -/
structure ExcRef where
  target : ExcObject
  staticDepth : Nat
deriving DecidableEq, Repr

/-- A reference whose static type is the dynamic type of the object. -/
def ExcRef.exact (e : ExcObject) : ExcRef :=
  ⟨e, e.layers.length⟩

/-- The expression `new ExceptionT {exception}`: an object of dynamic type
`ExceptionT` copy constructed from the `ExceptionT` subobject of the argument. -/
def ExcRef.newCopy (r : ExcRef) : ExcObject :=
  { base := r.target.base, layers := r.target.layers.take r.staticDepth }

/-- The expression `new ExceptionT {std::move(exception)}`: as `newCopy`, by the
move constructor of `ExceptionT`; the new object takes over the content of the
`ExceptionT` subobject. -/
def ExcRef.newMove (r : ExcRef) : ExcObject :=
  { base := r.target.base, layers := r.target.layers.take r.staticDepth }

/-! ## The two members and their library operations -/

/-- The class `fallible<T>`: its two private data members. -/
structure fallible (T : Type) where
  exc : Option ExcObject
  value : Option T
deriving DecidableEq, Repr

/-- `boost::optional<T>::get() const`: `BOOST_ASSERT(this->is_initialized())`
and then the stored value.  `assertions` says whether `BOOST_ASSERT` is
compiled in (neither `NDEBUG` nor `BOOST_DISABLE_ASSERTS` defined). -/
def optional_get {T : Type} (assertions : Bool) : Option T → Outcome T
  | some v => .ok v
  | none => if assertions then .assertFailed else .undefined

/-- `std::unique_ptr::operator->`: the pointee; the pointer must not be null. -/
def unique_ptr_arrow : Option ExcObject → Outcome ExcObject
  | some e => .ok e
  | none => .undefined

/-- Move construction of a `std::unique_ptr`: (new pointer, source afterwards).
The source is left null. -/
def unique_ptr_move (p : Option ExcObject) : Option ExcObject × Option ExcObject :=
  (p, none)

/-- Move construction of a `boost::optional<T>`: (new optional, source
afterwards).  An engaged source stays engaged and holds a moved-from `T`;
`movedFrom` is what a `T` holds after it has been moved from. -/
def optional_move {T : Type} (movedFrom : T → T) : Option T → Option T × Option T
  | some v => (some v, some (movedFrom v))
  | none => (none, none)

/-- Move assignment of a `std::unique_ptr`: (target afterwards, source
afterwards).  The former pointee of the target is deleted. -/
def unique_ptr_move_assign (_self other : Option ExcObject) :
    Option ExcObject × Option ExcObject :=
  (other, none)

/-- Move assignment of a `boost::optional<T>`: (target afterwards, source
afterwards).  From an engaged source the target ends up engaged with the value
(assigned when the target was engaged, constructed when it was not); from an
empty source the target is reset. -/
def optional_move_assign {T : Type} (movedFrom : T → T) :
    Option T → Option T → Option T × Option T
  | some _, some v => (some v, some (movedFrom v))
  | none, some v => (some v, some (movedFrom v))
  | some _, none => (none, none)
  | none, none => (none, none)

/-- Move assignment of a `std::unique_ptr` to itself, `reset(release())`:
`release()` hands the pointer out and `reset` puts it back; the pointer is
kept. -/
def unique_ptr_move_assign_self (p : Option ExcObject) : Option ExcObject :=
  p

/-- Move assignment of a `boost::optional<T>` to itself: an engaged optional
move-assigns its value to itself and stays engaged (`selfMoved` is what a `T`
holds after `t = std::move(t)`), an empty one stays empty. -/
def optional_move_assign_self {T : Type} (selfMoved : T → T) : Option T → Option T
  | some v => some (selfMoved v)
  | none => none

/-- Copy construction of a `std::unique_ptr`: the copy constructor is deleted,
there is no result. -/
def unique_ptr_copy (_p : Option ExcObject) : Option (Option ExcObject) :=
  none

/-- Copy construction of a `boost::optional<T>`. -/
def optional_copy {T : Type} (o : Option T) : Option (Option T) :=
  some o

namespace fallible

variable {T : Type}

/-! ## Constructors -/

/-- `constexpr fallible(T const& value) : exc{}, value{value}`. -/
def fromValueCopy (value : T) : fallible T :=
  { exc := none, value := some value }

/-- `constexpr fallible(T&& value) : exc{}, value{std::move(value)}`. -/
def fromValueMove (value : T) : fallible T :=
  { exc := none, value := some value }

/-- `template <typename ExceptionT> constexpr fallible(ExceptionT const& exception)
: exc{new ExceptionT {exception}}, value{}`. -/
def fromExceptionCopy (exception : ExcRef) : fallible T :=
  { exc := some exception.newCopy, value := none }

/-- `template <typename ExceptionT> constexpr fallible(ExceptionT&& exception)
: exc(new ExceptionT {std::move(exception)}), value{}`. -/
def fromExceptionMove (exception : ExcRef) : fallible T :=
  { exc := some exception.newMove, value := none }

/-! ## Accessors -/

/-- `explicit operator bool() const { return static_cast <bool> (value); }`. -/
def toBool (self : fallible T) : Bool :=
  self.value.isSome

/-- `T get() const { return value.get(); }`. -/
def get (assertions : Bool) (self : fallible T) : Outcome T :=
  optional_get assertions self.value

/-- `const char* what() const noexcept`: `exc->what()` when `operator bool()`
is false, otherwise `nullptr` (here `none`). -/
def what (self : fallible T) : Outcome (Option String) :=
  if !self.toBool then
    match unique_ptr_arrow self.exc with
    | .ok e => .ok (some e.what)
    | .assertFailed => .assertFailed
    | .undefined => .undefined
  else
    .ok none

/-! ## Defaulted special members -/

/-- `fallible(fallible&& other) = default`: member-wise move construction.
Returns (the new object, `other` afterwards). -/
def moveCtor (movedFrom : T → T) (other : fallible T) : fallible T × fallible T :=
  let e := unique_ptr_move other.exc
  let v := optional_move movedFrom other.value
  ({ exc := e.1, value := v.1 }, { exc := e.2, value := v.2 })

/-- `fallible& operator=(fallible&& other) = default`: member-wise move
assignment, for `*this` and `other` two distinct objects (they may hold equal
contents).  Returns (`*this` afterwards, `other` afterwards).  The assignment
of an object to itself is `moveAssignSelf`. -/
def moveAssign (movedFrom : T → T) (self other : fallible T) : fallible T × fallible T :=
  let e := unique_ptr_move_assign self.exc other.exc
  let v := optional_move_assign movedFrom self.value other.value
  ({ exc := e.1, value := v.1 }, { exc := e.2, value := v.2 })

/-- `fallible& operator=(fallible&& other) = default` with `*this` and `other`
the same object, `a = std::move(a)`: member-wise move assignment of each member
to itself.  Returns the object afterwards. -/
def moveAssignSelf (selfMoved : T → T) (self : fallible T) : fallible T :=
  { exc := unique_ptr_move_assign_self self.exc,
    value := optional_move_assign_self selfMoved self.value }

/-- `fallible(fallible const& other) = default`: member-wise copy construction.
A defaulted copy constructor is defined as deleted when a member cannot be
copied; `none` is the deleted function, a program that calls it does not
compile. -/
def copyCtor (other : fallible T) : Option (fallible T) := do
  let e ← unique_ptr_copy other.exc
  let v ← optional_copy other.value
  pure { exc := e, value := v }

/-- `fallible& operator=(fallible const& other) = default`: member-wise copy
assignment, deleted like `copyCtor` when a member cannot be copy assigned. -/
def copyAssign (_self other : fallible T) : Option (fallible T) := do
  let e ← unique_ptr_copy other.exc
  let v ← optional_copy other.value
  pure { exc := e, value := v }

/-- Exactly one of the stored value and the captured failure is present. -/
def exactlyOne (self : fallible T) : Bool :=
  xor self.exc.isSome self.value.isSome

end fallible

/-! ## Calls of the const accessors -/

/-- The three const member functions. -/
inductive Accessor where
  | get
  | what
  | toBool
deriving DecidableEq, Repr

/-- What a call of an accessor hands back. -/
inductive Observation (T : Type) where
  | value (r : Outcome T)
  | message (r : Outcome (Option String))
  | flag (b : Bool)
deriving DecidableEq, Repr

/-- The call returned to its caller: operator bool always does, get() and
what() do when their outcome is `ok`. -/
def Observation.returned {T : Type} : Observation T → Bool
  | .value (.ok _) => true
  | .message (.ok _) => true
  | .flag _ => true
  | _ => false

namespace fallible

variable {T : Type}

/-- One call of a const accessor on `self`: what the call hands back and the
object afterwards.  All three are `const` member functions, the class has no
`mutable` member, and none of the bodies writes to a member.  For a call that
does not return (`Observation.returned`) the second component is the object as
the call found it. -/
def observe (assertions : Bool) (a : Accessor) (self : fallible T) :
    Observation T × fallible T :=
  match a with
  | .get => (.value (self.get assertions), self)
  | .what => (.message self.what, self)
  | .toBool => (.flag self.toBool, self)

/-- A run of up to `n` calls of the same accessor, one after the other.  A call
that does not return (`Observation.returned`) ends the run: the program has
been aborted or has no behaviour from there on, no further call is made and
there is no object afterwards.  Returns the outcomes of the calls made, in
order, and the object after the last call when every call returned. -/
def observeMany (assertions : Bool) (a : Accessor) :
    Nat → fallible T → List (Observation T) × Option (fallible T)
  | 0, self => ([], some self)
  | n + 1, self =>
    let r := observe assertions a self
    if r.1.returned then
      let rest := observeMany assertions a n r.2
      (r.1 :: rest.1, rest.2)
    else
      ([r.1], none)

/-! ## Objects the public interface can produce -/

/-- Objects reachable through the public interface: results of the four
constructors, targets of move construction and move assignment, the sources of
those moves afterwards, and objects move assigned to themselves.  (Copy
construction and copy assignment produce nothing, see `copyCtor`.) -/
inductive Reachable (movedFrom selfMoved : T → T) : fallible T → Prop where
  | valueCopy (v : T) : Reachable movedFrom selfMoved (fromValueCopy v)
  | valueMove (v : T) : Reachable movedFrom selfMoved (fromValueMove v)
  | exceptionCopy (r : ExcRef) : Reachable movedFrom selfMoved (fromExceptionCopy r)
  | exceptionMove (r : ExcRef) : Reachable movedFrom selfMoved (fromExceptionMove r)
  | moveCtorNew {o : fallible T} :
      Reachable movedFrom selfMoved o → Reachable movedFrom selfMoved (moveCtor movedFrom o).1
  | moveCtorSource {o : fallible T} :
      Reachable movedFrom selfMoved o → Reachable movedFrom selfMoved (moveCtor movedFrom o).2
  | moveAssignTarget {a b : fallible T} :
      Reachable movedFrom selfMoved a → Reachable movedFrom selfMoved b →
      Reachable movedFrom selfMoved (moveAssign movedFrom a b).1
  | moveAssignSource {a b : fallible T} :
      Reachable movedFrom selfMoved a → Reachable movedFrom selfMoved b →
      Reachable movedFrom selfMoved (moveAssign movedFrom a b).2
  | moveAssignSelf {o : fallible T} :
      Reachable movedFrom selfMoved o → Reachable movedFrom selfMoved (moveAssignSelf selfMoved o)

/-- Objects that have not been moved into another object, built from such
objects only: results of the four constructors, targets of a move construction
or move assignment whose source is such an object, and such objects move
assigned to themselves.  The target of a move assignment may have been anything
before. -/
inductive Fresh (movedFrom selfMoved : T → T) : fallible T → Prop where
  | valueCopy (v : T) : Fresh movedFrom selfMoved (fromValueCopy v)
  | valueMove (v : T) : Fresh movedFrom selfMoved (fromValueMove v)
  | exceptionCopy (r : ExcRef) : Fresh movedFrom selfMoved (fromExceptionCopy r)
  | exceptionMove (r : ExcRef) : Fresh movedFrom selfMoved (fromExceptionMove r)
  | moveCtorNew {o : fallible T} :
      Fresh movedFrom selfMoved o → Fresh movedFrom selfMoved (moveCtor movedFrom o).1
  | moveAssignTarget (a : fallible T) {b : fallible T} :
      Fresh movedFrom selfMoved b → Fresh movedFrom selfMoved (moveAssign movedFrom a b).1
  | moveAssignSelf {o : fallible T} :
      Fresh movedFrom selfMoved o → Fresh movedFrom selfMoved (moveAssignSelf selfMoved o)

end fallible

/-! ## Overload resolution among the converting constructors

The four constructors that take one argument other than a `fallible`:

```
constexpr fallible(T const& value)
constexpr fallible(T&& value)
template <typename ExceptionT> constexpr fallible(ExceptionT const& exception)
template <typename ExceptionT> constexpr fallible(ExceptionT&& exception)
```

In the last one `ExceptionT&&` is a forwarding reference: for an lvalue
argument `ExceptionT` is deduced as an lvalue reference type.  The copy and move
constructors of `fallible` are not candidates here: for an argument that is not
a `fallible` they need a user-defined conversion, which ranks below every
binding listed below, and the two templates are viable for every argument.
-/

/-- The four converting constructors. -/
inductive Ctor where
  | valueCopy
  | valueMove
  | exceptionCopy
  | exceptionMove
deriving DecidableEq, Repr

/-- What the argument expression designates, by its type with cv-qualifiers
removed: an object of type `T`; an object of another class type that is
`std::exception` or publicly derived from it; or an object of any other type. -/
inductive ArgValue (T : Type) where
  | ofT (v : T)
  | ofException (r : ExcRef)
  | ofOther
deriving DecidableEq, Repr

/-- A constructor argument as overload resolution sees it.  `converted` is the
`T` an implicit conversion of the argument yields, when its type is not `T` and
such a conversion exists. -/
structure Arg (T : Type) where
  value : ArgValue T
  converted : Option T
  isConst : Bool
  isLvalue : Bool
deriving DecidableEq, Repr

/-- The type of the argument, cv-qualifiers removed, is `T`. -/
def Arg.isT {T : Type} (a : Arg T) : Bool :=
  match a.value with
  | .ofT _ => true
  | _ => false

/-- The type of the argument is `std::exception` or publicly derived from it;
`tDerives` says whether `T` itself is. -/
def Arg.derives {T : Type} (tDerives : Bool) (a : Arg T) : Bool :=
  match a.value with
  | .ofT _ => tDerives
  | .ofException _ => true
  | .ofOther => false

/-- How the reference parameter of a candidate binds to the argument.
`direct`: the reference binds to the argument itself (identity conversion);
otherwise it binds to a temporary made by an implicit conversion.
`rvalueRef`: the parameter is an rvalue reference.  `addsConst`: the type the
reference refers to is more cv-qualified than the argument. -/
structure Ics where
  direct : Bool
  rvalueRef : Bool
  addsConst : Bool
deriving DecidableEq, Repr

/-- The binding of the argument to the parameter of a candidate, `none` when
the candidate is not viable. -/
def Ctor.ics {T : Type} (c : Ctor) (a : Arg T) : Option Ics :=
  match c with
  | .valueCopy =>
    if a.isT then some { direct := true, rvalueRef := false, addsConst := !a.isConst }
    else if a.converted.isSome then
      some { direct := false, rvalueRef := false, addsConst := false }
    else none
  | .valueMove =>
    if a.isT then
      if !a.isLvalue && !a.isConst then
        some { direct := true, rvalueRef := true, addsConst := false }
      else none
    else if a.converted.isSome then
      some { direct := false, rvalueRef := true, addsConst := false }
    else none
  | .exceptionCopy =>
    some { direct := true, rvalueRef := false, addsConst := !a.isConst }
  | .exceptionMove =>
    some { direct := true, rvalueRef := !a.isLvalue, addsConst := false }

/-- Ranking of two bindings: a direct binding is better than one through a
conversion; of two bindings of the same kind, an rvalue reference bound to an
rvalue is better than an lvalue reference, and a reference to a less
cv-qualified type is better. -/
def Ics.better (s1 s2 : Ics) : Bool :=
  if s1.direct != s2.direct then s1.direct
  else (s1.rvalueRef && !s2.rvalueRef) || (!s1.addsConst && s2.addsConst)

/-- The candidate is a specialization of a constructor template. -/
def Ctor.isTemplate : Ctor → Bool
  | .valueCopy => false
  | .valueMove => false
  | .exceptionCopy => true
  | .exceptionMove => true

/-- Partial ordering of the two templates: `ExceptionT const&` is more
specialized than `ExceptionT&&`. -/
def Ctor.moreSpecialized : Ctor → Ctor → Bool
  | .exceptionCopy, .exceptionMove => true
  | _, _ => false

/-- Candidate `f1` is a better match than `f2` for the argument: its binding is
better; or neither binding is better and `f1` is not a template while `f2` is,
or both are templates and `f1` is the more specialized. -/
def Ctor.betterThan {T : Type} (a : Arg T) (f1 f2 : Ctor) : Bool :=
  match f1.ics a, f2.ics a with
  | some s1, some s2 =>
    if s1.better s2 then true
    else if s2.better s1 then false
    else (!f1.isTemplate && f2.isTemplate) || f1.moreSpecialized f2
  | some _, none => true
  | none, _ => false

/-- The overload set. -/
def Ctor.all : List Ctor :=
  [.valueCopy, .valueMove, .exceptionCopy, .exceptionMove]

/-- Overload resolution: the viable candidate that is a better match than every
other viable candidate; `none` when there is no such candidate. -/
def selectCtor {T : Type} (a : Arg T) : Option Ctor :=
  Ctor.all.find? fun f =>
    (f.ics a).isSome &&
      Ctor.all.all fun g => g == f || (g.ics a).isNone || f.betterThan a g

/-- What template argument deduction gives for `ExceptionT`: the type of the
argument, that type const-qualified, or an lvalue reference type. -/
inductive Deduced where
  | plain
  | constQualified
  | lvalueReference
deriving DecidableEq, Repr

/-- Deduction of `ExceptionT`.  From `ExceptionT const&` it is the type of the
argument without const.  From the forwarding reference `ExceptionT&&` it is an
lvalue reference type for an lvalue and the type of the argument, const kept,
for an rvalue. -/
def deducedExceptionT {T : Type} (c : Ctor) (a : Arg T) : Deduced :=
  match c with
  | .exceptionMove =>
    if a.isLvalue then .lvalueReference
    else if a.isConst then .constQualified
    else .plain
  | _ => .plain

/-- The member initializer `exc{new ExceptionT {exception}}` compiles: there is
no `new` of a reference type, and the pointer it yields converts to
`std::exception*` only when `ExceptionT` is not const and is `std::exception`
or publicly derived from it. -/
def excInitCompiles {T : Type} (tDerives : Bool) (c : Ctor) (a : Arg T) : Bool :=
  match deducedExceptionT c a with
  | .plain => a.derives tDerives
  | .constQualified => false
  | .lvalueReference => false

namespace fallible

variable {T : Type}

/-- The construction `fallible<T>(arg)`: the object built by the constructor
that overload resolution selects, `none` when the program does not compile.
Where a failure constructor is selected for an argument that is not an
exception object of a type other than `T`, its initializer does not compile
(`failure_ctor_for_other_argument_does_not_compile`). -/
def construct (tDerives : Bool) (a : Arg T) : Option (fallible T) :=
  match selectCtor a with
  | some .valueCopy =>
    match a.value with
    | .ofT v => some (fromValueCopy v)
    | _ => a.converted.map fromValueCopy
  | some .valueMove =>
    match a.value with
    | .ofT v => some (fromValueMove v)
    | _ => a.converted.map fromValueMove
  | some .exceptionCopy =>
    if excInitCompiles tDerives .exceptionCopy a then
      match a.value with
      | .ofException r => some (fromExceptionCopy r)
      | _ => none
    else none
  | some .exceptionMove =>
    if excInitCompiles tDerives .exceptionMove a then
      match a.value with
      | .ofException r => some (fromExceptionMove r)
      | _ => none
    else none
  | none => none

end fallible

/-! ## Sample failure objects -/

/-- The failure `Overflow{"value too large"}`: a class directly below
`std::exception` that overrides `what()`. -/
def overflow : ExcObject :=
  { base := "std::exception", layers := [some "value too large"] }

/-! ## Theorems -/

namespace fallible

variable {T : Type}

/-- C1: for every value v, the object built by either value constructor reports
success (operator bool is true) and get() returns v. -/
theorem C1_value_ctor_success (assertions : Bool) (v : T) :
    (fromValueCopy v).toBool = true ∧ (fromValueCopy v).get assertions = .ok v ∧
    (fromValueMove v).toBool = true ∧ (fromValueMove v).get assertions = .ok v := by
  refine ⟨rfl, rfl, rfl, rfl⟩

/-- C2: for every failure object f of type F (its own type is the type of the
constructor argument) carrying message m, the object built by either failure
constructor reports failure (operator bool is false) and what() returns m. -/
theorem C2_failure_ctor_reports_failure (f : ExcObject) (m : String) (hm : f.what = m) :
    (fromExceptionCopy (ExcRef.exact f) : fallible T).toBool = false ∧
    (fromExceptionCopy (ExcRef.exact f) : fallible T).what = .ok (some m) ∧
    (fromExceptionMove (ExcRef.exact f) : fallible T).toBool = false ∧
    (fromExceptionMove (ExcRef.exact f) : fallible T).what = .ok (some m) := by
  have hcopy : (ExcRef.exact f).newCopy = f := by
    cases f
    simp [ExcRef.exact, ExcRef.newCopy]
  have hmove : (ExcRef.exact f).newMove = f := by
    cases f
    simp [ExcRef.exact, ExcRef.newMove]
  subst hm
  refine ⟨rfl, ?_, rfl, ?_⟩
  · simp [what, toBool, fromExceptionCopy, unique_ptr_arrow, hcopy]
  · simp [what, toBool, fromExceptionMove, unique_ptr_arrow, hmove]

/-- Witness of C2 at the scenario of the specification:
`fallible<int> r(Overflow{"value too large"})`. -/
theorem C2_failure_ctor_witness :
    overflow.what = "value too large" ∧
    ((fromExceptionCopy (ExcRef.exact overflow) : fallible Int).toBool = false ∧
     (fromExceptionCopy (ExcRef.exact overflow) : fallible Int).what
        = .ok (some "value too large") ∧
     (fromExceptionMove (ExcRef.exact overflow) : fallible Int).toBool = false ∧
     (fromExceptionMove (ExcRef.exact overflow) : fallible Int).what
        = .ok (some "value too large")) :=
  ⟨rfl, C2_failure_ctor_reports_failure overflow "value too large" rfl⟩

/-! ### Facts about the member-wise moves -/

theorem optional_move_new (movedFrom : T → T) (o : Option T) :
    (optional_move movedFrom o).1 = o := by
  cases o <;> rfl

theorem optional_move_source_isSome (movedFrom : T → T) (o : Option T) :
    (optional_move movedFrom o).2.isSome = o.isSome := by
  cases o <;> rfl

theorem optional_move_assign_target (movedFrom : T → T) (a b : Option T) :
    (optional_move_assign movedFrom a b).1 = b := by
  cases a <;> cases b <;> rfl

theorem optional_move_assign_source_isSome (movedFrom : T → T) (a b : Option T) :
    (optional_move_assign movedFrom a b).2.isSome = b.isSome := by
  cases a <;> cases b <;> rfl

theorem moveCtor_new (movedFrom : T → T) (o : fallible T) :
    (moveCtor movedFrom o).1 = o := by
  cases o
  simp [moveCtor, unique_ptr_move, optional_move_new]

theorem moveAssign_target (movedFrom : T → T) (a b : fallible T) :
    (moveAssign movedFrom a b).1 = b := by
  cases b
  simp [moveAssign, unique_ptr_move_assign, optional_move_assign_target]

theorem moveCtor_source_toBool (movedFrom : T → T) (o : fallible T) :
    (moveCtor movedFrom o).2.toBool = o.toBool := by
  simp [moveCtor, toBool, optional_move_source_isSome]

theorem moveAssign_source_toBool (movedFrom : T → T) (a b : fallible T) :
    (moveAssign movedFrom a b).2.toBool = b.toBool := by
  simp [moveAssign, toBool, optional_move_assign_source_isSome]

theorem moveAssignSelf_exc (selfMoved : T → T) (o : fallible T) :
    (moveAssignSelf selfMoved o).exc = o.exc :=
  rfl

theorem moveAssignSelf_value_isSome (selfMoved : T → T) (o : fallible T) :
    (moveAssignSelf selfMoved o).value.isSome = o.value.isSome := by
  obtain ⟨e, v⟩ := o
  cases v <;> rfl

theorem Fresh.exactlyOne_eq {movedFrom selfMoved : T → T} {o : fallible T}
    (h : Fresh movedFrom selfMoved o) : o.exactlyOne = true := by
  induction h with
  | valueCopy v => rfl
  | valueMove v => rfl
  | exceptionCopy r => rfl
  | exceptionMove r => rfl
  | moveCtorNew _ ih => rw [moveCtor_new]; exact ih
  | moveAssignTarget a _ ih => rw [moveAssign_target]; exact ih
  | moveAssignSelf _ ih =>
    simpa [exactlyOne, moveAssignSelf_exc, moveAssignSelf_value_isSome] using ih

theorem Reachable.not_both {movedFrom selfMoved : T → T} {o : fallible T}
    (h : Reachable movedFrom selfMoved o) : (o.exc.isSome && o.value.isSome) = false := by
  induction h with
  | valueCopy v => rfl
  | valueMove v => rfl
  | exceptionCopy r => rfl
  | exceptionMove r => rfl
  | moveCtorNew _ ih => rw [moveCtor_new]; exact ih
  | moveCtorSource _ _ => rfl
  | moveAssignTarget _ _ _ ihb => rw [moveAssign_target]; exact ihb
  | moveAssignSource _ _ _ _ => rfl
  | moveAssignSelf _ ih =>
    simpa [moveAssignSelf_exc, moveAssignSelf_value_isSome] using ih

theorem observeMany_eq (assertions : Bool) (a : Accessor) (n : Nat) (self : fallible T)
    (hret : (observe assertions a self).1.returned = true) :
    observeMany assertions a n self
      = (List.replicate n (observe assertions a self).1, some self) := by
  induction n with
  | zero => rfl
  | succ n ih =>
    have hstate : (observe assertions a self).2 = self := by
      cases a <;> rfl
    simp only [observeMany, hret, if_true, hstate, ih, List.replicate_succ]

/-! ### The claims -/

/-- C3, the claim as stated fails: the object left behind by move construction
from a failure (a reachable object) has neither a value nor a failure, its
operator bool is false, its exc is null, and what() dereferences the null
pointer. -/
theorem C3_moved_from_failure_counterexample :
    Reachable (T := Int) id id
      (moveCtor id (fromExceptionCopy (ExcRef.exact overflow) : fallible Int)).2 ∧
    (moveCtor id (fromExceptionCopy (ExcRef.exact overflow) : fallible Int)).2
      = { exc := none, value := none } ∧
    (moveCtor id (fromExceptionCopy (ExcRef.exact overflow) : fallible Int)).2.exactlyOne
      = false ∧
    (moveCtor id (fromExceptionCopy (ExcRef.exact overflow) : fallible Int)).2.toBool
      = false ∧
    (moveCtor id (fromExceptionCopy (ExcRef.exact overflow) : fallible Int)).2.what
      = .undefined :=
  ⟨Reachable.moveCtorSource (Reachable.exceptionCopy _), rfl, rfl, rfl, rfl⟩

/-- C3 as amended: in every object reachable through the public interface (the
four constructors, move construction, move assignment to another object or to
itself, moved-from objects included) the stored value and the captured failure
are never both present: exactly one is, or neither.  Exactly one is present,
and exc is not null when operator bool is false, in every object built by a
constructor or move constructed or move assigned from such an object.  After
it has been the source of a move, a success still holds its value with exc
null, and a failure holds neither: exc null and value empty.  Move assignment
of an object to itself keeps which members are present. -/
theorem C3_reachable_never_both_fresh_exactly_one (movedFrom selfMoved : T → T)
    (o : fallible T) (h : Reachable movedFrom selfMoved o) :
    (o.exc.isSome && o.value.isSome) = false ∧
    (o.exactlyOne = true ∨ (o.exc = none ∧ o.value = none)) ∧
    (Fresh movedFrom selfMoved o →
      o.exactlyOne = true ∧ (o.toBool = false → o.exc.isSome = true)) ∧
    (o.toBool = true →
      ((moveCtor movedFrom o).2.exc = none ∧
        (moveCtor movedFrom o).2.value.isSome = true) ∧
      ∀ a : fallible T, (moveAssign movedFrom a o).2.exc = none ∧
        (moveAssign movedFrom a o).2.value.isSome = true) ∧
    (o.toBool = false →
      (moveCtor movedFrom o).2 = { exc := none, value := none } ∧
      ∀ a : fallible T, (moveAssign movedFrom a o).2 = { exc := none, value := none }) ∧
    ((moveAssignSelf selfMoved o).exc = o.exc ∧
      (moveAssignSelf selfMoved o).value.isSome = o.value.isSome) := by
  have hnb := h.not_both
  obtain ⟨e, v⟩ := o
  refine ⟨hnb, ?_, ?_, ?_, ?_, rfl, moveAssignSelf_value_isSome selfMoved _⟩
  · cases e <;> cases v <;> simp_all [exactlyOne]
  · intro hf
    have hone := hf.exactlyOne_eq
    refine ⟨hone, ?_⟩
    intro hb
    cases e <;> cases v <;> simp_all [exactlyOne, toBool]
  · intro hb
    cases v with
    | none => simp [toBool] at hb
    | some x =>
      refine ⟨⟨rfl, rfl⟩, ?_⟩
      intro a
      obtain ⟨ea, va⟩ := a
      cases va <;> exact ⟨rfl, rfl⟩
  · intro hb
    cases v with
    | some x => simp [toBool] at hb
    | none =>
      refine ⟨rfl, ?_⟩
      intro a
      obtain ⟨ea, va⟩ := a
      cases va <;> rfl

/-- Witness of C3 as amended, at `fallible<int>(Overflow{"value too large"})`:
it holds exactly one member, and after a move construction from it, it holds
neither. -/
theorem C3_reachable_witness :
    (fromExceptionCopy (ExcRef.exact overflow) : fallible Int).exactlyOne = true ∧
    (moveCtor id (fromExceptionCopy (ExcRef.exact overflow) : fallible Int)).2
      = { exc := none, value := none } :=
  have h := C3_reachable_never_both_fresh_exactly_one (T := Int) id id
    (fromExceptionCopy (ExcRef.exact overflow)) (Reachable.exceptionCopy _)
  ⟨(h.2.2.1 (Fresh.exceptionCopy _)).1, (h.2.2.2.2.1 rfl).1⟩

/-- C4, the code at the failing input: get() on an object built by a failure
constructor has no guard of its own; it is the call of get() on the empty
optional, which aborts on a BOOST_ASSERT when assertions are compiled in and has
no defined behaviour (no error is surfaced) when they are not. -/
theorem C4_get_on_failure_is_unguarded (r : ExcRef) :
    (fromExceptionCopy r : fallible T).get false = .undefined ∧
    (fromExceptionMove r : fallible T).get false = .undefined ∧
    (fromExceptionCopy r : fallible T).get true = .assertFailed ∧
    (fromExceptionMove r : fallible T).get true = .assertFailed :=
  ⟨rfl, rfl, rfl, rfl⟩

/-- C5: on an object that holds a value what() returns the null pointer
whatever exc is (exc is not dereferenced); on an object that holds no value and
a captured failure e what() returns the message of e; `fallible<int>(42).what()`
is the null pointer. -/
theorem C5_what_by_branch (self : fallible T) :
    (self.toBool = true →
      self.what = .ok none ∧
      ∀ p : Option ExcObject, ({ exc := p, value := self.value } : fallible T).what = .ok none) ∧
    (∀ e : ExcObject, self.toBool = false → self.exc = some e →
      self.what = .ok (some e.what)) ∧
    (fromValueCopy (42 : Int)).what = .ok none := by
  obtain ⟨e, v⟩ := self
  refine ⟨?_, ?_, rfl⟩
  · intro hb
    cases v with
    | none => simp [toBool] at hb
    | some x => exact ⟨rfl, fun _ => rfl⟩
  · intro e' hb he
    cases v with
    | none =>
      simp only at he
      subst he
      rfl
    | some x => simp [toBool] at hb

/-- C6, the code at the failing input: the defaulted copy constructor and copy
assignment operator are deleted for every object, because the member exc is a
std::unique_ptr; no copy is ever produced. -/
theorem C6_copy_operations_are_deleted (self other : fallible T) :
    other.copyCtor = none ∧ self.copyAssign other = none :=
  ⟨rfl, rfl⟩

/-- C7: the object built by moving from s has the operator bool result, the
get() result and the what() result that s had before the move (a value v stored
in s is returned by get() on the new object), it owns the failure object that s
owned, and after the move the exc of s is null. -/
theorem C7_move_ctor_transfers_branch (movedFrom : T → T) (assertions : Bool)
    (s : fallible T) :
    (moveCtor movedFrom s).1.toBool = s.toBool ∧
    (moveCtor movedFrom s).1.get assertions = s.get assertions ∧
    (∀ v : T, s.value = some v → (moveCtor movedFrom s).1.get assertions = .ok v) ∧
    (moveCtor movedFrom s).1.what = s.what ∧
    (moveCtor movedFrom s).1.exc = s.exc ∧
    (moveCtor movedFrom s).2.exc = none := by
  rw [moveCtor_new]
  refine ⟨rfl, rfl, ?_, rfl, rfl, rfl⟩
  intro v hv
  simp [get, hv, optional_get]

/-- C8, the claim as stated fails: move assignment from a failure turns a
success (operator bool true) into a failure (operator bool false). -/
theorem C8_move_assign_counterexample :
    (fromValueCopy (1 : Int)).toBool = true ∧
    (moveAssign id (fromValueCopy (1 : Int))
      (fromExceptionCopy (ExcRef.exact overflow))).1.toBool = false :=
  ⟨rfl, rfl⟩

/-- C8 as amended: get, what, operator bool and being the source of a move
construction or of a move assignment leave the operator bool result of the
object as it was; the target of a move assignment takes the operator bool
result the source had before the assignment. -/
theorem C8_branch_kept_except_assignment_target (movedFrom : T → T) (assertions : Bool)
    (acc : Accessor) (a b : fallible T) :
    (observe assertions acc a).2.toBool = a.toBool ∧
    (moveCtor movedFrom a).2.toBool = a.toBool ∧
    (moveAssign movedFrom b a).2.toBool = a.toBool ∧
    (moveAssign movedFrom a b).1.toBool = b.toBool := by
  refine ⟨?_, moveCtor_source_toBool movedFrom a, moveAssign_source_toBool movedFrom b a, ?_⟩
  · cases acc <;> rfl
  · rw [moveAssign_target]

/-- C9, the claim as stated fails: `Overflow{"value too large"}` passed through
a reference to std::exception is captured as a std::exception, and what() on
the fallible returns the message of std::exception, not the message of the
original object. -/
theorem C9_slicing_counterexample :
    (ExcRef.mk overflow 0).target.what = "value too large" ∧
    (fromExceptionCopy (ExcRef.mk overflow 0) : fallible Int).what
      = .ok (some "std::exception") ∧
    (fromExceptionMove (ExcRef.mk overflow 0) : fallible Int).what
      = .ok (some "std::exception") ∧
    (fromExceptionCopy (ExcRef.mk overflow 0) : fallible Int).what
      ≠ .ok (some (ExcRef.mk overflow 0).target.what) :=
  ⟨rfl, rfl, rfl, by decide⟩

/-- C9 as amended: the captured failure has the static type of the constructor
argument; what() on the resulting fallible returns the message of the copy made
at that type, and this is the message of the original object when the dynamic
type of the object is the type of the argument. -/
theorem C9_static_type_is_captured (r : ExcRef) (e : ExcObject) :
    (fromExceptionCopy r : fallible T).what = .ok (some r.newCopy.what) ∧
    (fromExceptionMove r : fallible T).what = .ok (some r.newMove.what) ∧
    r.newCopy.layers = r.target.layers.take r.staticDepth ∧
    r.newMove.layers = r.target.layers.take r.staticDepth ∧
    (fromExceptionCopy (ExcRef.exact e) : fallible T).what = .ok (some e.what) ∧
    (fromExceptionMove (ExcRef.exact e) : fallible T).what = .ok (some e.what) := by
  have hcopy : (ExcRef.exact e).newCopy = e := by
    cases e
    simp [ExcRef.exact, ExcRef.newCopy]
  have hmove : (ExcRef.exact e).newMove = e := by
    cases e
    simp [ExcRef.exact, ExcRef.newMove]
  refine ⟨rfl, rfl, rfl, rfl, ?_, ?_⟩
  · simp [what, toBool, fromExceptionCopy, unique_ptr_arrow, hcopy]
  · simp [what, toBool, fromExceptionMove, unique_ptr_arrow, hmove]

/-- C10, the claim as stated fails: on the object left behind by move
construction from a failure (a reachable object) what() dereferences the null
exc; the first call does not return, so no message is returned and no further
call is made. -/
theorem C10_what_on_moved_from_failure_counterexample :
    Reachable (T := Int) id id
      (moveCtor id (fromExceptionCopy (ExcRef.exact overflow) : fallible Int)).2 ∧
    (observe true Accessor.what
      (moveCtor id (fromExceptionCopy (ExcRef.exact overflow) : fallible Int)).2).1
      = Observation.message .undefined ∧
    observeMany true Accessor.what 3
      (moveCtor id (fromExceptionCopy (ExcRef.exact overflow) : fallible Int)).2
      = ([Observation.message .undefined], none) :=
  ⟨Reachable.moveCtorSource (Reachable.exceptionCopy _), rfl, rfl⟩

/-- C10 as amended: a call of operator bool on any object, of get() on an
object that is a success, or of what() on an object that is a success or whose
exc is not null, returns and leaves the stored value and the captured failure
as they were; any number of such calls one after the other all return and all
return what the first returns.  operator bool returns whether a value is
stored, get() returns the stored value, what() returns the null pointer on a
success and the message of the captured failure otherwise. -/
theorem C10_accessors_are_pure_where_defined (assertions : Bool) (acc : Accessor)
    (self : fallible T)
    (hget : acc = Accessor.get → self.toBool = true)
    (hwhat : acc = Accessor.what → self.toBool = false → self.exc.isSome = true) :
    (observe assertions acc self).1.returned = true ∧
    (observe assertions acc self).2 = self ∧
    (∀ n : Nat, observeMany assertions acc n self
      = (List.replicate n (observe assertions acc self).1, some self)) ∧
    (acc = Accessor.toBool →
      (observe assertions acc self).1 = .flag self.value.isSome) ∧
    (acc = Accessor.get →
      ∃ v : T, self.value = some v ∧ (observe assertions acc self).1 = .value (.ok v)) ∧
    (acc = Accessor.what → self.toBool = true →
      (observe assertions acc self).1 = .message (.ok none)) ∧
    (acc = Accessor.what → self.toBool = false →
      ∃ e : ExcObject, self.exc = some e ∧
        (observe assertions acc self).1 = .message (.ok (some e.what))) := by
  have hstate : (observe assertions acc self).2 = self := by
    cases acc <;> rfl
  have hret : (observe assertions acc self).1.returned = true := by
    obtain ⟨e, v⟩ := self
    cases acc with
    | toBool => rfl
    | get =>
      have hb := hget rfl
      cases v with
      | none => simp [toBool] at hb
      | some x => rfl
    | what =>
      cases v with
      | some x => rfl
      | none =>
        have he := hwhat rfl rfl
        cases e with
        | none => simp at he
        | some x => rfl
  refine ⟨hret, hstate, fun n => observeMany_eq assertions acc n self hret, ?_, ?_, ?_, ?_⟩
  · intro hacc
    subst hacc
    rfl
  · intro hacc
    have hb := hget hacc
    subst hacc
    obtain ⟨e, v⟩ := self
    cases v with
    | none => simp [toBool] at hb
    | some x => exact ⟨x, rfl, rfl⟩
  · intro hacc hb
    subst hacc
    obtain ⟨e, v⟩ := self
    cases v with
    | none => simp [toBool] at hb
    | some x => rfl
  · intro hacc hb
    have he := hwhat hacc hb
    subst hacc
    obtain ⟨e, v⟩ := self
    cases v with
    | some x => simp [toBool] at hb
    | none =>
      cases e with
      | none => simp at he
      | some x => exact ⟨x, rfl, rfl⟩

/-- Witness of C10 as amended: three calls of what() on
`fallible<int>(Overflow{"value too large"})`, a failure that owns its failure
object. -/
theorem C10_accessors_witness :
    (fromExceptionCopy (ExcRef.exact overflow) : fallible Int).exc.isSome = true ∧
    observeMany true Accessor.what 3
        (fromExceptionCopy (ExcRef.exact overflow) : fallible Int)
      = (List.replicate 3 (Observation.message (.ok (some "value too large"))),
         some (fromExceptionCopy (ExcRef.exact overflow))) :=
  ⟨rfl, (C10_accessors_are_pure_where_defined (T := Int) true Accessor.what
    (fromExceptionCopy (ExcRef.exact overflow)) (by decide) (fun _ _ => rfl)).2.2.1 3⟩

/-- C11: for every v both value constructors produce an object whose optional
value is engaged (with v) and whose exc is null; for every failure argument both
failure constructors produce an object whose exc is not null (it owns the newly
allocated failure object) and whose optional value is empty. -/
theorem C11_ctor_establishes_one_branch (v : T) (r : ExcRef) :
    ((fromValueCopy v).value = some v ∧ (fromValueCopy v).exc = none) ∧
    ((fromValueMove v).value = some v ∧ (fromValueMove v).exc = none) ∧
    ((fromExceptionCopy r : fallible T).exc = some r.newCopy ∧
      (fromExceptionCopy r : fallible T).exc.isSome = true ∧
      (fromExceptionCopy r : fallible T).value = none) ∧
    ((fromExceptionMove r : fallible T).exc = some r.newMove ∧
      (fromExceptionMove r : fallible T).exc.isSome = true ∧
      (fromExceptionMove r : fallible T).value = none) ∧
    (fromValueCopy v).exactlyOne = true ∧ (fromValueMove v).exactlyOne = true ∧
    (fromExceptionCopy r : fallible T).exactlyOne = true ∧
    (fromExceptionMove r : fallible T).exactlyOne = true :=
  ⟨⟨rfl, rfl⟩, ⟨rfl, rfl⟩, ⟨rfl, rfl, rfl⟩, ⟨rfl, rfl, rfl⟩, rfl, rfl, rfl, rfl⟩

/-- C13, the code on both forms of assignment: copy assignment `a = b` is
deleted for every a and b (no assignment happens); move assignment
`a = std::move(b)` gives a both members of b as they were, whatever a held
before: a has exactly one branch present when b had, and operator bool, get()
and what() on a afterwards are those of b before. -/
theorem C13_assignment_overwrites_both_members (movedFrom : T → T) (assertions : Bool)
    (a b : fallible T) :
    a.copyAssign b = none ∧
    (moveAssign movedFrom a b).1.exc = b.exc ∧
    (moveAssign movedFrom a b).1.value = b.value ∧
    (moveAssign movedFrom a b).1.exactlyOne = b.exactlyOne ∧
    (moveAssign movedFrom a b).1.toBool = b.toBool ∧
    (moveAssign movedFrom a b).1.get assertions = b.get assertions ∧
    (moveAssign movedFrom a b).1.what = b.what := by
  rw [moveAssign_target]
  exact ⟨rfl, rfl, rfl, rfl, rfl, rfl, rfl⟩

/-! ### Overload resolution -/

/-- Whenever a failure constructor is selected for an argument of type T or of
a type that is not an exception type, its member initializer does not compile:
the branches of `construct` that return `none` for such arguments build
nothing in the code either. -/
theorem failure_ctor_for_other_argument_does_not_compile (tDerives : Bool) (a : Arg T)
    (c : Ctor) (hsel : selectCtor a = some c) (htmpl : c.isTemplate = true)
    (hval : ∀ r : ExcRef, a.value ≠ .ofException r) :
    excInitCompiles tDerives c a = false := by
  obtain ⟨value, converted, isConst, isLvalue⟩ := a
  cases value with
  | ofException r => exact absurd rfl (hval r)
  | ofOther =>
    cases c <;> simp [Ctor.isTemplate] at htmpl <;>
      cases isConst <;> cases isLvalue <;>
      simp [excInitCompiles, deducedExceptionT, Arg.derives]
  | ofT v =>
    cases converted <;> cases isConst <;> cases isLvalue <;> cases c <;>
      simp [Ctor.isTemplate] at htmpl <;>
      first
        | rfl
        | (have hc := Option.some.inj hsel; cases hc)

/-- A non-const lvalue of type T (`int x = 42; fallible<int> r(x);`) is not
routed to a value constructor: the forwarding reference `ExceptionT&&` binds it
as `T&` and is the better match, `ExceptionT` is a reference type and the
construction does not compile.  The same holds for a non-const lvalue of an
exception type. -/
theorem nonconst_lvalue_selects_forwarding_ctor (tDerives : Bool) :
    selectCtor ({ value := .ofT 42, converted := none, isConst := false,
                  isLvalue := true } : Arg Int) = some .exceptionMove ∧
    construct tDerives ({ value := .ofT 42, converted := none, isConst := false,
                          isLvalue := true } : Arg Int) = none ∧
    selectCtor ({ value := .ofException (ExcRef.exact overflow), converted := none,
                  isConst := false, isLvalue := true } : Arg Int) = some .exceptionMove ∧
    construct tDerives ({ value := .ofException (ExcRef.exact overflow), converted := none,
                          isConst := false, isLvalue := true } : Arg Int) = none := by
  cases tDerives <;> exact ⟨rfl, rfl, rfl, rfl⟩

/-- C12, the claim as stated fails: with T an exception class, here
`fallible<Overflow> r(Overflow{"value too large"})`, construction from a T is
not forbidden and takes no disambiguator: overload resolution selects the value
constructor and the object is a success holding the Overflow as its value. -/
theorem C12_exception_valued_counterexample :
    selectCtor ({ value := .ofT overflow, converted := none, isConst := false,
                  isLvalue := false } : Arg ExcObject) = some .valueMove ∧
    construct true ({ value := .ofT overflow, converted := none, isConst := false,
                      isLvalue := false } : Arg ExcObject)
      = some (fromValueMove overflow) ∧
    (fromValueMove overflow).toBool = true ∧
    (fromValueMove overflow).what = .ok none :=
  ⟨rfl, rfl, rfl, rfl⟩

/-- C12 as amended: for an argument that is a non-const rvalue or a const
lvalue, routing is decided by its type.  An argument of type T selects the
value constructor (T&& for the rvalue, T const& for the lvalue) and yields a
success holding it; an argument of another type derived from std::exception
selects the failure constructor and yields a failure owning its copy.  Whether
T itself derives from std::exception changes nothing: construction from a T is
not forbidden and takes the value path. -/
theorem C12_routing_by_argument_type (tDerives : Bool) (a : Arg T)
    (hcat : a.isConst = a.isLvalue) :
    (∀ v : T, a.value = .ofT v →
      selectCtor a = some (if a.isLvalue then Ctor.valueCopy else Ctor.valueMove) ∧
      ∃ o : fallible T, construct tDerives a = some o ∧
        o.toBool = true ∧ o.value = some v ∧ o.exc = none) ∧
    (∀ r : ExcRef, a.value = .ofException r →
      selectCtor a = some (if a.isLvalue then Ctor.exceptionCopy else Ctor.exceptionMove) ∧
      ∃ o : fallible T, construct tDerives a = some o ∧
        o.toBool = false ∧ o.value = none ∧
        o.exc = some (if a.isLvalue then r.newCopy else r.newMove)) := by
  obtain ⟨value, converted, isConst, isLvalue⟩ := a
  simp only at hcat
  subst hcat
  constructor
  · intro v hv
    simp only at hv
    subst hv
    cases converted <;> cases isConst <;> cases tDerives <;>
      exact ⟨rfl, _, rfl, rfl, rfl, rfl⟩
  · intro r hr
    simp only at hr
    subst hr
    cases converted <;> cases isConst <;> cases tDerives <;>
      exact ⟨rfl, _, rfl, rfl, rfl, rfl⟩

/-- Witness of C12 as amended: `const int x = 42; fallible<int> r(x);` selects
`fallible(T const&)` and yields a success holding 42. -/
theorem C12_routing_witness :
    selectCtor ({ value := .ofT 42, converted := none, isConst := true,
                  isLvalue := true } : Arg Int) = some Ctor.valueCopy ∧
    construct false ({ value := .ofT 42, converted := none, isConst := true,
                       isLvalue := true } : Arg Int) = some (fromValueCopy 42) :=
  have h := (C12_routing_by_argument_type false
    ({ value := .ofT 42, converted := none, isConst := true, isLvalue := true } : Arg Int)
    rfl).1 42 rfl
  ⟨h.1, by obtain ⟨o, ho, _, hv, he⟩ := h.2; rw [ho]; cases o; simp_all [fromValueCopy]⟩

end fallible
